import Mathlib

/-!
Verification of the session-orchestration and real-time relay layer of the
ai-agent-manager backend (`src/backend/app`), as a shallow embedding in Lean.

Timestamps are modelled as integers (seconds); the database stores status and
role fields as raw strings (`Column(String)`), so the embedding keeps them as
`String`. External effects (the `docker exec` process queries, websocket sends)
are modelled by explicit parameters describing their outcome.
-/

namespace AgentManager

/-- Embeds the `AgentSession` ORM model of `database.py`: id, agent name,
status string (column default `"running"`), creation time, optional stop time,
optional last-heartbeat time. -/
structure AgentSession where
  id : Nat
  agent_name : String
  status : String
  created_at : Int
  stopped_at : Option Int
  last_heartbeat : Option Int
  deriving Repr, DecidableEq

/-- Embeds the `ChatMessage` ORM model of `database.py`. -/
structure ChatMessage where
  session_id : Nat
  role : String
  content : String
  timestamp : Int
  deriving Repr, DecidableEq

/-- A server-to-client JSON frame as built in `main.py` / `websocket_manager.py`;
absent JSON keys are `none`. -/
structure Frame where
  type : String
  role : Option String := none
  content : Option String := none
  timestamp : Option Int := none
  status : Option String := none
  is_typing : Option Bool := none
  deriving Repr, DecidableEq

/-- The frame sent by `ConnectionManager.broadcast_status`. -/
def statusFrame (st : String) : Frame :=
  { type := "status", status := some st }

/-- Embeds `VenvManager.get_container_status` (venv_manager.py:198-216).
`queryOk` is whether the `docker exec ps | grep` pipeline ran without raising;
`processFound` is whether it exited 0 with non-empty stdout. The Python returns
`"running"` when a matching process is found, `"exited"` otherwise, and `None`
when the query itself raised. -/
def get_container_status (queryOk : Bool) (processFound : Bool) : Option String :=
  if queryOk then
    if processFound then some "running" else some "exited"
  else
    none

/-- The JSON body returned by `get_session` (and per-entry by `list_sessions`). -/
structure SessionView where
  session_id : Nat
  agent_name : String
  status : String
  created_at : Int
  deriving Repr, DecidableEq

/-- Embeds the found-session path of `get_session` (main.py:158-177): it queries
`get_container_status` and, whenever that returns a (truthy) status string, it
overwrites the persisted status with it and commits; then it returns the view.
Returns the committed session row together with the response body. -/
def get_session (process_status : Option String) (s : AgentSession) :
    AgentSession × SessionView :=
  let s' :=
    match process_status with
    | some st => { s with status := st }
    | none => s
  (s', { session_id := s'.id, agent_name := s'.agent_name,
         status := s'.status, created_at := s'.created_at })

/-- A concrete stopped session, as left by a successful `stop_session`. -/
def stoppedSession0 : AgentSession :=
  { id := 7, agent_name := "echo", status := "stopped", created_at := 0,
    stopped_at := some 100, last_heartbeat := some 90 }

/-- C1: the read path of `get_session` does NOT preserve a terminal `stopped`
status. Whenever the process query succeeds it overwrites the persisted status
with the query result: a stopped session whose `agent-{id}-` pattern still
matches a process is resurrected to `running`, and one with no matching process
(the normal case after a stop) is rewritten to `exited`. Both are edges the
state machine forbids. -/
theorem get_session_overwrites_stopped :
    (get_session (get_container_status true true) stoppedSession0).1.status = "running" ∧
    (get_session (get_container_status true false) stoppedSession0).1.status = "exited" := by
  constructor <;> rfl

/-- C10: when the process query raises and `get_container_status` returns no
status, `get_session` leaves the session row unchanged and still returns the
stored identity, agent name, status, and creation timestamp. -/
theorem get_session_query_failure_preserves (pf : Bool) (s : AgentSession)
    (h : get_container_status false pf = none) :
    get_session (get_container_status false pf) s =
      (s, { session_id := s.id, agent_name := s.agent_name,
            status := s.status, created_at := s.created_at }) := by
  rw [h]
  rfl

/-- Witness for C10 at a concrete session. -/
theorem get_session_query_failure_preserves_witness :
    get_container_status false true = none ∧
    get_session (get_container_status false true) stoppedSession0 =
      (stoppedSession0,
       { session_id := stoppedSession0.id, agent_name := stoppedSession0.agent_name,
         status := stoppedSession0.status, created_at := stoppedSession0.created_at }) :=
  ⟨rfl, get_session_query_failure_preserves true stoppedSession0 rfl⟩

/-- A fresh session row as inserted by `create_session` (main.py:130-133):
only `agent_name` is supplied, so the column defaults apply — in particular
`status` defaults to `"running"` (database.py:19), not `"pending"`. -/
def newAgentSession (id : Nat) (agent_name : String) (now : Int) : AgentSession :=
  { id := id, agent_name := agent_name, status := "running", created_at := now,
    stopped_at := none, last_heartbeat := none }

/-- Outcome of `create_session` as seen by the HTTP caller. -/
inductive CreateResult where
  | notFound
  | ok (view : SessionView)
  | spawnError
  deriving Repr, DecidableEq

/-- Observable effect of one `create_session` call: the row as first committed
(before the spawn attempt), the row after the handler finishes, and the HTTP
result. -/
structure CreateTrace where
  inserted : Option AgentSession
  final : Option AgentSession
  result : CreateResult
  deriving Repr, DecidableEq

/-- Embeds `create_session` (main.py:120-155): validate the agent name against
the available-agents listing (404 if absent); insert the session row with the
column defaults; attempt the spawn; on success commit status `"running"` and
return the view; on spawn failure commit status `"failed"` and raise HTTP 500.
`spawn_ok` is whether `container_manager.spawn_agent` returned without
raising. -/
def create_session (available : List String) (spawn_ok : Bool)
    (agent_name : String) (new_id : Nat) (now : Int) : CreateTrace :=
  if available.contains agent_name then
    let s := newAgentSession new_id agent_name now
    if spawn_ok then
      { inserted := some s,
        final := some { s with status := "running" },
        result := CreateResult.ok
          { session_id := s.id, agent_name := agent_name,
            status := "running", created_at := s.created_at } }
    else
      { inserted := some s,
        final := some { s with status := "failed" },
        result := CreateResult.spawnError }
  else
    { inserted := none, final := none, result := CreateResult.notFound }

/-- C3 counterexample: the row committed by `create_session` before the spawn
attempt carries status `"running"` (the model's column default), not
`"pending"` — the claimed pending-before-spawn state never exists. -/
theorem create_session_inserts_running_not_pending :
    (create_session ["echo"] false "echo" 1 0).inserted =
      some (newAgentSession 1 "echo" 0) ∧
    (newAgentSession 1 "echo" 0).status = "running" ∧
    ¬ (newAgentSession 1 "echo" 0).status = "pending" := by
  refine ⟨rfl, rfl, ?_⟩
  decide

/-- C3 amended: for a known agent, `create_session` inserts the row with the
model-default status `"running"` before spawning; on spawn failure it sets
status `"failed"` and returns an error to the caller; the final row is never
left at `"pending"` (indeed `"pending"` is never assigned at all). -/
theorem create_session_spawn_failure_sets_failed
    (available : List String) (spawn_ok : Bool) (agent_name : String)
    (new_id : Nat) (now : Int)
    (hmem : available.contains agent_name = true) :
    (create_session available spawn_ok agent_name new_id now).inserted =
      some (newAgentSession new_id agent_name now) ∧
    (newAgentSession new_id agent_name now).status = "running" ∧
    (spawn_ok = false →
      (create_session available spawn_ok agent_name new_id now).final =
        some { newAgentSession new_id agent_name now with status := "failed" } ∧
      (create_session available spawn_ok agent_name new_id now).result =
        CreateResult.spawnError) ∧
    (∀ row, (create_session available spawn_ok agent_name new_id now).final = some row →
      row.status ≠ "pending") := by
  cases spawn_ok with
  | true =>
      refine ⟨?_, rfl, ?_, ?_⟩
      · unfold create_session
        rw [hmem]
        rfl
      · intro hso
        exact Bool.noConfusion hso
      · intro row hrow
        unfold create_session at hrow
        rw [hmem] at hrow
        simp only [if_true] at hrow
        cases hrow
        show ("running" : String) ≠ "pending"
        decide
  | false =>
      refine ⟨?_, rfl, ?_, ?_⟩
      · unfold create_session
        rw [hmem]
        rfl
      · intro _
        constructor
        · unfold create_session
          rw [hmem]
          rfl
        · unfold create_session
          rw [hmem]
          rfl
      · intro row hrow
        unfold create_session at hrow
        rw [hmem] at hrow
        simp only [Bool.false_eq_true, if_false] at hrow
        cases hrow
        show ("failed" : String) ≠ "pending"
        decide

/-- Witness for C3 (amended) at a concrete failed spawn. -/
theorem create_session_spawn_failure_sets_failed_witness :
    (["echo"].contains "echo" = true) ∧
    (create_session ["echo"] false "echo" 1 0).final =
      some { newAgentSession 1 "echo" 0 with status := "failed" } :=
  ⟨by decide,
   ((create_session_spawn_failure_sets_failed ["echo"] false "echo" 1 0
      (by decide)).2.2.1 rfl).1⟩

/-- Outcome of `stop_session` as seen by the HTTP caller. -/
inductive StopResult where
  | notFound
  | ok
  deriving Repr, DecidableEq

/-- Observable effect of one `stop_session` call: the committed row, the status
frames broadcast (paired with the target session id), whether
`container_manager.stop_agent` was invoked, and the HTTP result. -/
structure StopTrace where
  session : Option AgentSession
  broadcasts : List (Nat × Frame)
  stoppedProcess : Bool
  result : StopResult
  deriving Repr, DecidableEq

/-- Embeds `stop_session` (main.py:180-204): 404 when the row is missing;
otherwise the process is stopped only when status is `"running"`, and then —
unconditionally, with no already-stopped guard — status is set to `"stopped"`,
`stopped_at` is stamped with the current time, the commit happens, and a
`"stopped"` status frame is broadcast. -/
def stop_session (now : Int) (s : Option AgentSession) : StopTrace :=
  match s with
  | none =>
      { session := none, broadcasts := [], stoppedProcess := false,
        result := StopResult.notFound }
  | some s =>
      { session := some { s with status := "stopped", stopped_at := some now },
        broadcasts := [(s.id, statusFrame "stopped")],
        stoppedProcess := s.status == "running",
        result := StopResult.ok }

/-- C4 counterexample: stopping `stoppedSession0` (already stopped at time 100)
again at time 200 re-stamps `stopped_at` to 200 and emits another `"stopped"`
status broadcast, contradicting the claimed strict no-op. -/
theorem stop_session_restamps_and_rebroadcasts :
    (stop_session 200 (some stoppedSession0)).session =
      some { stoppedSession0 with stopped_at := some 200 } ∧
    ¬ (stop_session 200 (some stoppedSession0)).session = some stoppedSession0 ∧
    (stop_session 200 (some stoppedSession0)).broadcasts =
      [(7, statusFrame "stopped")] := by
  refine ⟨rfl, ?_, rfl⟩
  decide

/-- C4 amended: a further `stop_session` on a session whose status is already
`"stopped"` or `"exited"` still succeeds and does not invoke the process stop,
and the resulting status is `"stopped"`; however it is not a strict no-op: it
re-stamps `stopped_at` to the time of the call and broadcasts one more
`"stopped"` status frame. -/
theorem stop_session_already_stopped (now : Int) (s : AgentSession)
    (h : s.status = "stopped" ∨ s.status = "exited") :
    (stop_session now (some s)).result = StopResult.ok ∧
    (stop_session now (some s)).stoppedProcess = false ∧
    (stop_session now (some s)).session =
      some { s with status := "stopped", stopped_at := some now } ∧
    (∀ r, (stop_session now (some s)).session = some r → r.status = "stopped") ∧
    (stop_session now (some s)).broadcasts = [(s.id, statusFrame "stopped")] := by
  refine ⟨rfl, ?_, rfl, ?_, rfl⟩
  · show (s.status == "running") = false
    rcases h with h | h <;> rw [h] <;> decide
  · intro r hr
    cases hr
    rfl

/-- Witness for C4 (amended) at a concrete already-stopped session. -/
theorem stop_session_already_stopped_witness :
    stoppedSession0.status = "stopped" ∧
    (stop_session 300 (some stoppedSession0)).result = StopResult.ok ∧
    (stop_session 300 (some stoppedSession0)).stoppedProcess = false :=
  ⟨rfl,
   (stop_session_already_stopped 300 stoppedSession0 (Or.inl rfl)).1,
   (stop_session_already_stopped 300 stoppedSession0 (Or.inl rfl)).2.1⟩

/-- Embeds the per-session reconciliation of `list_sessions` (main.py:92-107):
only sessions marked `"running"` are reconciled; the process status is queried
first, but the `exited` check is the `elif` of `if session.last_heartbeat`, so
when a heartbeat is recorded only the staleness check runs, and the process
query result is consulted only when no heartbeat was ever recorded. -/
def list_sessions_reconcile (now : Int) (process_status : Option String)
    (s : AgentSession) : AgentSession :=
  if s.status = "running" then
    match s.last_heartbeat with
    | some hb =>
        if now - hb > 45 then { s with status := "unresponsive" } else s
    | none =>
        if process_status = some "exited" then { s with status := "exited" } else s
  else s

/-- A running session with a heartbeat recorded 10 seconds before `now = 100`. -/
def runningRecentHeartbeat : AgentSession :=
  { id := 3, agent_name := "echo", status := "running", created_at := 0,
    stopped_at := none, last_heartbeat := some 90 }

/-- C5: a running session with a fresh (10s old) heartbeat whose process query
reports `"exited"` is left at `"running"` by `list_sessions` — the transition
to `"exited"` claimed for the fresh-heartbeat case never fires, because the
`elif` chain only reaches the exited check when no heartbeat was ever
recorded. -/
theorem list_sessions_skips_exited_when_heartbeat_recent :
    list_sessions_reconcile 100 (some "exited") runningRecentHeartbeat =
      runningRecentHeartbeat ∧
    (list_sessions_reconcile 100 (some "exited") runningRecentHeartbeat).status =
      "running" ∧
    list_sessions_reconcile 100 (some "exited")
        { runningRecentHeartbeat with last_heartbeat := none } =
      { runningRecentHeartbeat with last_heartbeat := none, status := "exited" } := by
  refine ⟨?_, ?_, ?_⟩ <;> decide

/-- Embeds one per-session iteration of the `monitor_session_health` background
sweep (main.py:44-71): the query returns only sessions with status
`"running"`; for each, if a heartbeat is recorded and is more than 45 seconds
old, the session is marked `"unresponsive"`, committed, and an
`"unresponsive"` status frame is broadcast; otherwise nothing happens.
Sessions whose status is not `"running"` are not returned by the query and are
modelled as untouched. -/
def monitor_session_health_step (now : Int) (s : AgentSession) :
    AgentSession × List (Nat × Frame) :=
  if s.status = "running" then
    match s.last_heartbeat with
    | some hb =>
        if now - hb > 45 then
          ({ s with status := "unresponsive" }, [(s.id, statusFrame "unresponsive")])
        else (s, [])
    | none => (s, [])
  else (s, [])

/-- C6: on a sweep at time `now`, a running session whose recorded heartbeat is
more than 45 seconds old transitions to `"unresponsive"` with one status
broadcast; one whose heartbeat is at most 45 seconds old is untouched; and one
with no heartbeat ever recorded is never auto-transitioned, regardless of
elapsed time. -/
theorem monitor_session_health_spec (now : Int) (s : AgentSession)
    (hrun : s.status = "running") :
    (∀ hb, s.last_heartbeat = some hb → now - hb > 45 →
      monitor_session_health_step now s =
        ({ s with status := "unresponsive" }, [(s.id, statusFrame "unresponsive")])) ∧
    (∀ hb, s.last_heartbeat = some hb → now - hb ≤ 45 →
      monitor_session_health_step now s = (s, [])) ∧
    (s.last_heartbeat = none → monitor_session_health_step now s = (s, [])) := by
  refine ⟨?_, ?_, ?_⟩
  · intro hb hhb hgt
    unfold monitor_session_health_step
    rw [hrun, hhb]
    simp [hgt]
  · intro hb hhb hle
    unfold monitor_session_health_step
    rw [hrun, hhb]
    simp [not_lt.2 hle]
  · intro hnone
    unfold monitor_session_health_step
    rw [hrun, hnone]
    simp

/-- A running session whose only heartbeat arrived at time 0. -/
def runningStaleHeartbeat : AgentSession :=
  { id := 4, agent_name := "echo", status := "running", created_at := 0,
    stopped_at := none, last_heartbeat := some 0 }

/-- A running session that has never sent a heartbeat. -/
def runningNoHeartbeat : AgentSession :=
  { id := 5, agent_name := "echo", status := "running", created_at := 0,
    stopped_at := none, last_heartbeat := none }

/-- Witness for C6: at 46 seconds the session transitions and broadcasts; at 10
seconds it does not; with no heartbeat it never does. -/
theorem monitor_session_health_spec_witness :
    runningStaleHeartbeat.status = "running" ∧
    monitor_session_health_step 46 runningStaleHeartbeat =
      ({ runningStaleHeartbeat with status := "unresponsive" },
       [(4, statusFrame "unresponsive")]) ∧
    monitor_session_health_step 10 runningStaleHeartbeat = (runningStaleHeartbeat, []) ∧
    monitor_session_health_step 1000000 runningNoHeartbeat = (runningNoHeartbeat, []) :=
  ⟨rfl,
   (monitor_session_health_spec 46 runningStaleHeartbeat rfl).1 0 rfl (by decide),
   (monitor_session_health_spec 10 runningStaleHeartbeat rfl).2.1 0 rfl (by decide),
   (monitor_session_health_spec 1000000 runningNoHeartbeat rfl).2.2 rfl⟩

/-- Embeds one iteration of the `websocket_endpoint` receive loop
(main.py:308-392): dispatch on `data.get("type")` with
`content := data.get("content", "")`. Returns the messages persisted, the
frames sent through `connection_manager.send_message`, and the updated session
row. A frame whose type matches no branch (in particular
`"agent_message_save"`) falls through every `elif` and has no effect. -/
def websocket_handle_frame (now : Int) (sid : Nat) (s : AgentSession)
    (msg_type : String) (content : String) (is_typing : Bool) :
    List ChatMessage × List Frame × AgentSession :=
  if msg_type = "user_message" then
    ([{ session_id := sid, role := "user", content := content, timestamp := now }],
     [{ type := "user_message", content := some content },
      { type := "message", role := some "user", content := some content,
        timestamp := some now }],
     s)
  else if msg_type = "agent_message" then
    ([{ session_id := sid, role := "agent", content := content, timestamp := now }],
     [{ type := "message", role := some "agent", content := some content,
        timestamp := some now }],
     s)
  else if msg_type = "agent_message_stream" then
    ([],
     [{ type := "message_stream", role := some "agent", content := some content,
        timestamp := some now }],
     s)
  else if msg_type = "agent_log" then
    ([],
     [{ type := "log", role := some "log", content := some content,
        timestamp := some now }],
     s)
  else if msg_type = "typing" then
    ([], [{ type := "typing", is_typing := some is_typing }], s)
  else if msg_type = "heartbeat" then
    ([], [{ type := "heartbeat", timestamp := some now }],
     { s with last_heartbeat := some now })
  else
    ([], [], s)

/-- C2: an inbound `"agent_message_save"` frame matches no branch of the
dispatch chain and is silently dropped — zero messages persisted (the claim
requires exactly one with role agent), zero broadcasts, session untouched. -/
theorem agent_message_save_is_dropped :
    websocket_handle_frame 100 7 stoppedSession0 "agent_message_save" "full text" true =
      ([], [], stoppedSession0) ∧
    (websocket_handle_frame 100 7 stoppedSession0 "agent_message_save" "full text" true).1 =
      [] := by
  constructor <;> rfl

/-- C8: a `"user_message"` frame with content `c` persists exactly one message
with role `"user"` and content `c`, and exactly one of the frames broadcast has
type `"message"` — and that frame carries role `"user"`, content `c`, and the
persisted timestamp. (The handler additionally re-broadcasts the raw
`"user_message"` frame to the worker, which has a different type tag.) -/
theorem user_message_persist_and_broadcast (now : Int) (sid : Nat)
    (s : AgentSession) (c : String) (b : Bool) :
    (websocket_handle_frame now sid s "user_message" c b).1 =
      [{ session_id := sid, role := "user", content := c, timestamp := now }] ∧
    ((websocket_handle_frame now sid s "user_message" c b).2.1.filter
        (fun f => f.type == "message")) =
      [{ type := "message", role := some "user", content := some c,
         timestamp := some now }] ∧
    (websocket_handle_frame now sid s "user_message" c b).2.2 = s := by
  refine ⟨rfl, ?_, rfl⟩
  rfl

/-- In-memory registry of `ConnectionManager` (websocket_manager.py:9-12):
`active_connections : Dict[int, Set[WebSocket]]`. `dom` is the set of session
ids present as dictionary keys and `conns sid` is the channel set stored under
a present key; channel handles are modelled as naturals. -/
structure ConnState where
  dom : Finset Nat
  conns : Nat → Finset Nat

/-- Dictionary lookup on `active_connections`: `some` set iff the key is
present. -/
def lookupConns (cm : ConnState) (sid : Nat) : Option (Finset Nat) :=
  if sid ∈ cm.dom then some (cm.conns sid) else none

/-- Embeds `ConnectionManager.connect` (websocket_manager.py:14-21): create an
empty entry when the key is absent, then add the channel to the entry. -/
def connect (cm : ConnState) (sid ws : Nat) : ConnState :=
  let base := if sid ∈ cm.dom then cm.conns sid else ∅
  { dom := insert sid cm.dom,
    conns := fun k => if k = sid then insert ws base else cm.conns k }

/-- Embeds `ConnectionManager.disconnect` (websocket_manager.py:23-30): when
the key is present, discard the channel and delete the entry if the set became
empty; when the key is absent, do nothing. -/
def disconnect (cm : ConnState) (sid ws : Nat) : ConnState :=
  if sid ∈ cm.dom then
    let s' := (cm.conns sid).erase ws
    if s' = ∅ then
      { dom := cm.dom.erase sid, conns := cm.conns }
    else
      { dom := cm.dom, conns := fun k => if k = sid then s' else cm.conns k }
  else cm

/-- Embeds `ConnectionManager.send_message` (websocket_manager.py:32-48): when
the key is absent, return with nothing sent; otherwise attempt the send on
every registered channel (`healthy ws` is whether `connection.send_json`
succeeded for channel `ws`), collect the failing ones, and afterwards
`disconnect` each failing channel. Returns the new registry state and the set
of channels that received the frame. -/
def send_message (healthy : Nat → Bool) (cm : ConnState) (sid : Nat) :
    ConnState × Finset Nat :=
  if sid ∈ cm.dom then
    (((((cm.conns sid).filter (fun c => healthy c = false)).sort (· ≤ ·)).foldl
        (fun st c => disconnect st sid c) cm),
     (cm.conns sid).filter (fun c => healthy c = true))
  else (cm, ∅)

lemma disconnect_lookup_other (cm : ConnState) (sid ws k : Nat) (hk : k ≠ sid) :
    lookupConns (disconnect cm sid ws) k = lookupConns cm k := by
  by_cases hdom : sid ∈ cm.dom
  · by_cases hemp : (cm.conns sid).erase ws = ∅
    · simp [disconnect, lookupConns, hdom, hemp, Finset.mem_erase, hk]
    · simp [disconnect, lookupConns, hdom, hemp, hk]
  · simp [disconnect, hdom]

lemma disconnect_lookup_self (cm : ConnState) (sid ws : Nat) :
    lookupConns (disconnect cm sid ws) sid =
      (match lookupConns cm sid with
       | none => none
       | some S => if S.erase ws = ∅ then none else some (S.erase ws)) := by
  by_cases hdom : sid ∈ cm.dom
  · by_cases hemp : (cm.conns sid).erase ws = ∅
    · simp [disconnect, lookupConns, hdom, hemp]
    · simp [disconnect, lookupConns, hdom, hemp]
  · simp [disconnect, lookupConns, hdom]

/-- Erasing, one by one, every element of the list `l` from the finite set
`S` — the cleanup loop at the end of `send_message`. -/
def eraseList (S : Finset Nat) (l : List Nat) : Finset Nat :=
  l.foldl Finset.erase S

lemma eraseList_cons (S : Finset Nat) (c : Nat) (l : List Nat) :
    eraseList S (c :: l) = eraseList (S.erase c) l := rfl

lemma mem_eraseList (S : Finset Nat) (l : List Nat) (x : Nat) :
    x ∈ eraseList S l ↔ x ∈ S ∧ x ∉ l := by
  induction l generalizing S with
  | nil => simp [eraseList]
  | cons c l ih =>
      rw [eraseList_cons, ih, Finset.mem_erase]
      simp only [List.mem_cons]
      tauto

lemma eraseList_empty (l : List Nat) : eraseList ∅ l = ∅ := by
  ext x
  simp [mem_eraseList]

lemma foldl_disconnect_lookup_none (sid : Nat) (l : List Nat) (cm : ConnState)
    (h : lookupConns cm sid = none) :
    lookupConns (l.foldl (fun st c => disconnect st sid c) cm) sid = none := by
  induction l generalizing cm with
  | nil => exact h
  | cons c l ih =>
      rw [List.foldl_cons]
      apply ih
      rw [disconnect_lookup_self, h]

lemma foldl_disconnect_lookup_self (sid : Nat) (l : List Nat) (cm : ConnState)
    (S : Finset Nat) (h : lookupConns cm sid = some S) (hS : S ≠ ∅) :
    lookupConns (l.foldl (fun st c => disconnect st sid c) cm) sid =
      (if eraseList S l = ∅ then none else some (eraseList S l)) := by
  induction l generalizing cm S with
  | nil =>
      show lookupConns cm sid = _
      rw [h]
      show _ = if S = ∅ then none else some S
      rw [if_neg hS]
  | cons c l ih =>
      rw [List.foldl_cons, eraseList_cons]
      by_cases hemp : S.erase c = ∅
      · have hnone : lookupConns (disconnect cm sid c) sid = none := by
          rw [disconnect_lookup_self, h]
          show (if S.erase c = ∅ then none else some (S.erase c)) = none
          rw [if_pos hemp]
        rw [foldl_disconnect_lookup_none sid l _ hnone, hemp, eraseList_empty,
          if_pos rfl]
      · have hsome : lookupConns (disconnect cm sid c) sid = some (S.erase c) := by
          rw [disconnect_lookup_self, h]
          show (if S.erase c = ∅ then none else some (S.erase c)) = _
          rw [if_neg hemp]
        exact ih _ _ hsome hemp

lemma foldl_disconnect_lookup_other (sid k : Nat) (hk : k ≠ sid) (l : List Nat)
    (cm : ConnState) :
    lookupConns (l.foldl (fun st c => disconnect st sid c) cm) k =
      lookupConns cm k := by
  induction l generalizing cm with
  | nil => rfl
  | cons c l ih =>
      rw [List.foldl_cons, ih, disconnect_lookup_other cm sid c k hk]

lemma eraseList_filter_healthy (healthy : Nat → Bool) (S : Finset Nat) :
    eraseList S ((S.filter (fun c => healthy c = false)).sort (· ≤ ·)) =
      S.filter (fun c => healthy c = true) := by
  ext x
  rw [mem_eraseList, Finset.mem_sort, Finset.mem_filter, Finset.mem_filter]
  constructor
  · rintro ⟨hx, hn⟩
    refine ⟨hx, ?_⟩
    cases hh : healthy x with
    | false => exact absurd ⟨hx, hh⟩ hn
    | true => rfl
  · rintro ⟨hx, ht⟩
    refine ⟨hx, fun hmem => ?_⟩
    rw [ht] at hmem
    exact Bool.noConfusion hmem.2

/-- C7: for a session id with registered channels `S` (never empty in
reachable registries, by the pruning invariant), `send_message` attempts every
channel registered at send time and returns exactly the successfully-delivered
ones; each failing channel — and only those — is detached afterwards, leaving
the entry pruned when every channel failed; other sessions' entries are
untouched; and for an id with no entry it is a silent no-op returning the state
unchanged. -/
theorem send_message_isolates_failures (healthy : Nat → Bool) (cm : ConnState)
    (sid : Nat) :
    (lookupConns cm sid = none → send_message healthy cm sid = (cm, ∅)) ∧
    (lookupConns cm sid = some ∅ → send_message healthy cm sid = (cm, ∅)) ∧
    (∀ S, lookupConns cm sid = some S → S ≠ ∅ →
      (send_message healthy cm sid).2 = S.filter (fun c => healthy c = true) ∧
      lookupConns (send_message healthy cm sid).1 sid =
        (if S.filter (fun c => healthy c = true) = ∅ then none
         else some (S.filter (fun c => healthy c = true))) ∧
      (∀ k, k ≠ sid →
        lookupConns (send_message healthy cm sid).1 k = lookupConns cm k)) := by
  refine ⟨?_, ?_, ?_⟩
  · intro h
    have hdom : sid ∉ cm.dom := by
      intro hmem
      rw [lookupConns, if_pos hmem] at h
      exact Option.noConfusion h
    unfold send_message
    rw [if_neg hdom]
  · intro h
    have hdom : sid ∈ cm.dom := by
      by_contra hmem
      rw [lookupConns, if_neg hmem] at h
      exact Option.noConfusion h
    have hconns : cm.conns sid = ∅ := by
      rw [lookupConns, if_pos hdom] at h
      exact Option.some.inj h
    unfold send_message
    rw [if_pos hdom, hconns, Finset.filter_empty, Finset.filter_empty,
      Finset.sort_empty, List.foldl_nil]
  · intro S hS hSne
    have hdom : sid ∈ cm.dom := by
      by_contra hmem
      rw [lookupConns, if_neg hmem] at hS
      exact Option.noConfusion hS
    have hconns : cm.conns sid = S := by
      rw [lookupConns, if_pos hdom] at hS
      exact Option.some.inj hS
    refine ⟨?_, ?_, ?_⟩
    · unfold send_message
      rw [if_pos hdom, hconns]
    · unfold send_message
      rw [if_pos hdom, hconns]
      show lookupConns
          (((S.filter (fun c => healthy c = false)).sort (· ≤ ·)).foldl
            (fun st c => disconnect st sid c) cm) sid = _
      rw [foldl_disconnect_lookup_self sid _ cm S hS hSne,
        eraseList_filter_healthy]
    · intro k hk
      unfold send_message
      rw [if_pos hdom, hconns]
      exact foldl_disconnect_lookup_other sid k hk _ cm

/-- A registry with one session (id 1) holding channels 10 and 11. -/
def connState0 : ConnState :=
  { dom := {1}, conns := fun k => if k = 1 then {10, 11} else ∅ }

/-- Channel 10 delivers successfully; every other channel fails. -/
def healthy0 : Nat → Bool := fun c => c == 10

/-- Witness for C7: broadcasting to session 1 of `connState0` delivers to
channel 10 only (11 fails), and a session id with no entry is a no-op. -/
theorem send_message_isolates_failures_witness :
    lookupConns connState0 1 = some ({10, 11} : Finset Nat) ∧
    ({10, 11} : Finset Nat) ≠ ∅ ∧
    lookupConns connState0 2 = none ∧
    (send_message healthy0 connState0 1).2 =
      Finset.filter (fun c => healthy0 c = true) {10, 11} ∧
    send_message healthy0 connState0 2 = (connState0, ∅) :=
  ⟨by decide, by decide, by decide,
   ((send_message_isolates_failures healthy0 connState0 1).2.2 {10, 11}
      (by decide) (by decide)).1,
   (send_message_isolates_failures healthy0 connState0 2).1 (by decide)⟩

/-- The empty-set pruning invariant on the registry: no present key maps to an
empty channel set. -/
abbrev pruned (cm : ConnState) : Prop :=
  ∀ sid ∈ cm.dom, cm.conns sid ≠ ∅

lemma pruned_connect (cm : ConnState) (h : pruned cm) (sid ws : Nat) :
    pruned (connect cm sid ws) := by
  intro k hk
  show (if k = sid then insert ws (if sid ∈ cm.dom then cm.conns sid else ∅)
        else cm.conns k) ≠ ∅
  by_cases hks : k = sid
  · rw [if_pos hks]
    exact Finset.insert_ne_empty _ _
  · rw [if_neg hks]
    have hk' : k ∈ insert sid cm.dom := hk
    rcases Finset.mem_insert.mp hk' with h1 | h1
    · exact absurd h1 hks
    · exact h k h1

lemma pruned_disconnect (cm : ConnState) (h : pruned cm) (sid ws : Nat) :
    pruned (disconnect cm sid ws) := by
  unfold disconnect
  by_cases hdom : sid ∈ cm.dom
  · rw [if_pos hdom]
    show pruned (if (cm.conns sid).erase ws = ∅ then _ else _)
    by_cases hemp : (cm.conns sid).erase ws = ∅
    · rw [if_pos hemp]
      intro k hk
      exact h k (Finset.mem_of_mem_erase hk)
    · rw [if_neg hemp]
      intro k hk
      show (if k = sid then (cm.conns sid).erase ws else cm.conns k) ≠ ∅
      by_cases hks : k = sid
      · rw [if_pos hks]
        exact hemp
      · rw [if_neg hks]
        exact h k hk
  · rw [if_neg hdom]
    exact h

lemma pruned_foldl_disconnect (sid : Nat) (l : List Nat) (cm : ConnState)
    (h : pruned cm) :
    pruned (l.foldl (fun st c => disconnect st sid c) cm) := by
  induction l generalizing cm with
  | nil => exact h
  | cons c l ih => exact ih (disconnect cm sid c) (pruned_disconnect cm h sid c)

lemma pruned_send_message (healthy : Nat → Bool) (cm : ConnState)
    (h : pruned cm) (sid : Nat) :
    pruned (send_message healthy cm sid).1 := by
  unfold send_message
  by_cases hdom : sid ∈ cm.dom
  · rw [if_pos hdom]
    exact pruned_foldl_disconnect sid _ cm h
  · rw [if_neg hdom]
    exact h

/-- C9: the registry never maps a session id to an empty connection set — the
pruning invariant is preserved by `connect`, by `disconnect`, and by
`send_message` (which covers the implicit detach of failed channels during a
broadcast): any entry whose membership would become empty is removed
entirely. -/
theorem registry_never_maps_to_empty (cm : ConnState) (h : pruned cm) :
    (∀ sid ws, pruned (connect cm sid ws)) ∧
    (∀ sid ws, pruned (disconnect cm sid ws)) ∧
    (∀ healthy sid, pruned (send_message healthy cm sid).1) :=
  ⟨fun sid ws => pruned_connect cm h sid ws,
   fun sid ws => pruned_disconnect cm h sid ws,
   fun healthy sid => pruned_send_message healthy cm h sid⟩

/-- Witness for C9 at a concrete registry. -/
theorem registry_never_maps_to_empty_witness :
    pruned connState0 ∧ pruned (connect connState0 2 20) :=
  ⟨by decide, (registry_never_maps_to_empty connState0 (by decide)).1 2 20⟩

end AgentManager
